import Mathlib

/-!
Shallow embedding of the `opencode-client` Python repository
(src/opencode_client/session.py, files.py, client.py).

Conventions of the embedding:
* Python exceptions are modelled by the explicit error type `PyError`;
  fallible code returns `Except PyError α`.  `ValueError` and OS-level
  errors (`FileNotFoundError`, `PermissionError`, ... raised by `open`)
  are distinct constructors because `except ValueError` catches only the
  former.
* The network is modelled by an explicit `response` argument (the decoded
  reply the server would give to the single HTTP call the operation makes,
  or the non-2xx status code on which `raise_for_status` fires) and by a
  returned trace `List Request` of the HTTP requests actually issued.
  An operation that raises before its HTTP call returns the empty trace.
* The filesystem, `pathlib.Path.resolve` and `mimetypes.guess_type` are
  modelled by an explicit environment `Env`; `open(file).read()` succeeds
  exactly on readable entries of the filesystem map.
* `warnings.warn` calls are modelled by a returned list of warning strings.
* Python truthiness on optional strings/lists (`if not query`, `x or y`)
  is modelled explicitly: `None`, `""` and `[]` are falsy.
-/

namespace OC

/-- Python exception classes relevant to the client: `ValueError` (raised by
the part constructors and the precondition checks, and the only class caught
by `send_message`), OS-level errors raised by `open` (not caught anywhere),
and HTTP-status errors raised by `raise_for_status`. -/
inductive PyError where
  | valueError (msg : String)
  | osError (msg : String)
  | httpError (code : Nat)
deriving DecidableEq, Repr

/-- session.py `Time` (TypedDict): created/updated timestamps. -/
structure Time where
  created : Int
  updated : Int
deriving DecidableEq, Repr

/-- session.py `Session` dataclass. -/
structure Session where
  id : String
  title : String
  version : String
  projectID : String
  directory : String
  time : Time
  parentID : String := ""
deriving DecidableEq, Repr

/-- Python `s.startswith(p)`: character-wise prefix test (spelled out on the
character lists so it evaluates by kernel reduction). -/
def pyStartsWith (s p : String) : Bool :=
  p.data.isPrefixOf s.data

/-- session.py `TextPart` dataclass. -/
structure TextPart where
  text : String
  type : String := "text"
deriving DecidableEq, Repr

/-- Embeds `TextPart.from_string`. -/
def TextPart.from_string (string : String) : TextPart :=
  { text := string }

/-- session.py `FileSourceText` dataclass: an embedded copy of a file's
content with a start/end range. -/
structure FileSourceText where
  «end» : Nat
  start : Nat
  value : String
deriving DecidableEq, Repr

/-- One regular file of the modelled filesystem: whether `open(path, "r")`
succeeds on it, and its full textual content. -/
structure FileEntry where
  readable : Bool
  content : String
deriving DecidableEq, Repr

/-- The ambient environment of the file-part constructors: the result of
`mimetypes.guess_type`, of `pathlib.Path(file).resolve()`, and the
filesystem (`fs p = some e` iff `p` exists and is a regular file). -/
structure Env where
  guess_type : String → Option String
  resolve : String → String
  fs : String → Option FileEntry

/-- Embeds `FileSourceText.from_file`: `open(file, "r").read()` then
`start = 0, end = len(content)`.  `open` raises an OS-level error (not a
`ValueError`) on a missing or unreadable file. -/
def FileSourceText.from_file (env : Env) (file : String) : Except PyError FileSourceText :=
  match env.fs file with
  | none => .error (.osError ("No such file or directory: " ++ file))
  | some e =>
    if e.readable then
      .ok { start := 0, «end» := e.content.length, value := e.content }
    else
      .error (.osError ("Permission denied: " ++ file))

/-- session.py `FileSource` dataclass. -/
structure FileSource where
  path : String
  text : FileSourceText
  type : String := "file"
deriving DecidableEq, Repr

/-- Embeds `FileSource.from_file`. -/
def FileSource.from_file (env : Env) (file : String) : Except PyError FileSource :=
  match FileSourceText.from_file env file with
  | .ok t => .ok { path := file, text := t, type := "file" }
  | .error e => .error e

/-- Embeds `_raw_guess_mimetypes`: first component of `mimetypes.guess_type`. -/
def _raw_guess_mimetypes (env : Env) (file : String) : Option String :=
  env.guess_type file

/-- session.py `FilePart` dataclass.  The Python field
`source: FileSource | dict` defaults to the empty dict; `none` models that
empty-dict default, `some` a real `FileSource`. -/
structure FilePart where
  mime : String
  url : String
  type : String := "file"
  id : String := ""
  filename : String := ""
  source : Option FileSource := none
deriving DecidableEq, Repr

/-- Embeds `FilePart.from_file`: resolve the path; if it exists as a regular file,
guess the MIME type from the resolved path, require it to begin with
`text/`, and embed the file's content; otherwise raise `ValueError`.
Reading the file itself can raise an uncaught OS-level error. -/
def FilePart.from_file (env : Env) (file : String) : Except PyError FilePart :=
  let abs_path := env.resolve file
  match env.fs abs_path with
  | some _ =>
    match _raw_guess_mimetypes env abs_path with
    | none => .error (.valueError "It was not possible to guess the mimetype for your file from the provided path")
    | some mimetype =>
      if pyStartsWith mimetype "text/" then
        match FileSource.from_file env abs_path with
        | .ok src =>
          .ok { mime := mimetype, url := "file://" ++ abs_path, type := "file",
                filename := file, source := some src }
        | .error e => .error e
      else
        .error (.valueError ("Unsopported type: " ++ mimetype))
  | none => .error (.valueError "The provided file does not exist")

/-- Embeds `FilePart.from_url`: guess the MIME type from the URL; `ValueError` when
none can be guessed; no existence check, no fetch. -/
def FilePart.from_url (env : Env) (url : String) : Except PyError FilePart :=
  match _raw_guess_mimetypes env url with
  | none => .error (.valueError "It was not possible to guess the mimetype for your file from the provided URL")
  | some mimetype => .ok { url := url, mime := mimetype }

/-- A message part: session.py models `parts` as a heterogeneous list of
`TextPart`s and `FilePart`s. -/
inductive Part where
  | text (p : TextPart)
  | file (p : FilePart)
deriving DecidableEq, Repr

/-- session.py `UserMessage` dataclass.  The Python field is declared
`system: str = ""`, but `send_message` passes its `Optional[str]` argument
straight through, so the runtime value is `None` or a string; we model it
as `Option String`. -/
structure UserMessage where
  modelID : String
  providerID : String
  parts : List Part
  messageID : String := ""
  mode : String := "build"
  system : Option String := some ""
  tools : List (String × Bool) := []
deriving DecidableEq, Repr

structure AssistantMessageInfoPath where
  cwd : String
  root : String
deriving DecidableEq, Repr

structure AssistantMessageInfoTokensCache where
  read : Int
  write : Int
deriving DecidableEq, Repr

structure AssistantMessageInfoTokens where
  input : Int
  output : Int
  reasoning : Int
  cache : AssistantMessageInfoTokensCache
deriving DecidableEq, Repr

structure AssistantMessageInfoTime where
  started : Int
  completed : Int
deriving DecidableEq, Repr

/-- session.py `AssistantMessageInfo`.  Python declares `cost: int | float`;
no claim touches `cost`, and the client never computes with it, so it is
modelled as `Int`. -/
structure AssistantMessageInfo where
  id : String
  system : List String
  mode : String
  path : AssistantMessageInfoPath
  cost : Int
  tokens : AssistantMessageInfoTokens
  modelID : String
  providerID : String
  time : AssistantMessageInfoTime
  sessionID : String
deriving DecidableEq, Repr

structure AssistantMessageStepStart where
  id : String
  messageID : String
  sessionID : String
  type : String
deriving DecidableEq, Repr

structure AssistantMessageStepFinish where
  id : String
  messageID : String
  sessionID : String
  type : String
  tokens : AssistantMessageInfoTokens
deriving DecidableEq, Repr

structure AssistantMessageStepWithText where
  id : String
  messageID : String
  sessionID : String
  type : String
  text : String
deriving DecidableEq, Repr

inductive AssistantStep where
  | stepStart (s : AssistantMessageStepStart)
  | stepWithText (s : AssistantMessageStepWithText)
  | stepFinish (s : AssistantMessageStepFinish)
deriving DecidableEq, Repr

/-- session.py `AssistantMessage` dataclass (the `bloked` field name is the
source's own spelling). -/
structure AssistantMessage where
  info : AssistantMessageInfo
  parts : List AssistantStep
  bloked : Bool
deriving DecidableEq, Repr

/-- files.py `File` dataclass (`status` is a string literal among
`added`/`deleted`/`modified`). -/
structure File where
  added : Int
  path : String
  removed : Int
  status : String
deriving DecidableEq, Repr

/-- files.py `Match` dataclass; the two `Any`-typed payloads are kept as
opaque strings. -/
structure Match where
  path : String
  lines : String
  line_number : Int
  absolute_offset : Int
  submatches : String
deriving DecidableEq, Repr

/-- files.py `ReadFile` dataclass (`type` is `"raw"` or `"patch"`). -/
structure ReadFile where
  type : String
  content : String
deriving DecidableEq, Repr

/-- files.py `FileOperation` literal type. -/
inductive FileOperation where
  | read
  | get_status
  | search_by_text
  | search_by_name
deriving DecidableEq, Repr

example : TextPart.from_string "hi" = { text := "hi", type := "text" } := rfl

/-- One entry of `chat_history` (client.py declares it
`List[Union[UserMessage, AssistantMessage]]`). -/
inductive Message where
  | user (m : UserMessage)
  | assistant (m : AssistantMessage)
deriving DecidableEq, Repr

/-- The mutable state of an `OpenCodeClient` instance: exactly the fields
its `__init__` assigns (base URL, model provider, model, timeout,
`_current_session`, `chat_history`).  Note that `__init__` defines no
session-cache field. -/
structure ClientState where
  base_url : String
  model_provider : String
  model : String
  timeout : Nat := 600
  current_session : Option Session := none
  chat_history : List Message := []
deriving DecidableEq, Repr

/-- One HTTP request, abstracted to its method/path/body content: each
constructor corresponds to one method+path of the client's HTTP surface. -/
inductive Request where
  | createSession (parentID : String) (title : Option String)
  | listSessions
  | deleteSession (id : String)
  | updateSession (id : String) (title : String)
  | abortSession (id : String)
  | sendMessage (id : String) (msg : UserMessage)
  | fileStatus
  | readFilePath (path : String)
  | findFile (query : String)
  | findText (pattern : String)
deriving DecidableEq, Repr

/-- Models `res.raise_for_status()` followed by decoding: a non-2xx reply becomes
an `httpError`, a 2xx reply yields the decoded value. -/
def mapHttp {α : Type} : Except Nat α → Except PyError α
  | .ok a => .ok a
  | .error code => .error (.httpError code)

/-- Python `a or b` on an optional string: `None` and `""` are falsy. -/
def pyOrStr : Option String → Option String → Option String
  | some s, b => if s = "" then b else some s
  | none, b => b

/-- Python truthiness of an optional string. -/
def optStrTruthy : Option String → Bool
  | some s => s != ""
  | none => false

/-- The identifier-resolution rule shared by delete/update/abort/send:
`session_id = session_id or (self._current_session.id if self._current_session
else None)` followed by `if not session_id: raise`.  `none` means the
`ValueError` is raised. -/
def resolveSid (explicit : Option String) (st : ClientState) : Option String :=
  match pyOrStr explicit (st.current_session.map Session.id) with
  | some s => if s = "" then none else some s
  | none => none

/-- The `ValueError` raised when no session identifier can be resolved. -/
def noSessionIdError : PyError :=
  .valueError "No session ID provided and no session ID available from current session"

/-- Embeds `OpenCodeClient.create_current_session`: one POST /session carrying
`parentID = parent_id or ""` and the title; on success the decoded Session
becomes the current session and is returned. -/
def create_current_session (st : ClientState) (title : Option String)
    (parent_id : Option String) (response : Except Nat Session) :
    Except PyError Session × ClientState × List Request :=
  let req := Request.createSession ((pyOrStr parent_id (some "")).getD "") title
  match response with
  | .ok session => (.ok session, { st with current_session := some session }, [req])
  | .error code => (.error (.httpError code), st, [req])

/-- Embeds `OpenCodeClient.list_sessions`: one GET /session; decodes each element
of the reply in order and returns the list; no client field is assigned. -/
def list_sessions (st : ClientState) (response : Except Nat (List Session)) :
    Except PyError (List Session) × ClientState × List Request :=
  match response with
  | .ok payload => (.ok payload, st, [Request.listSessions])
  | .error code => (.error (.httpError code), st, [Request.listSessions])

/-- Embeds `OpenCodeClient._delete_session`: the DELETE /session/id call. -/
def _delete_session (session_id : String) (response : Except Nat Unit) :
    Except PyError Unit × List Request :=
  (mapHttp response, [Request.deleteSession session_id])

/-- Embeds `OpenCodeClient._update_session`: the PATCH /session/id call. -/
def _update_session (session_id : String) (title : String) (response : Except Nat Unit) :
    Except PyError Unit × List Request :=
  (mapHttp response, [Request.updateSession session_id title])

/-- Embeds `OpenCodeClient._abort_session`: the POST /session/id/abort call. -/
def _abort_session (session_id : String) (response : Except Nat Unit) :
    Except PyError Unit × List Request :=
  (mapHttp response, [Request.abortSession session_id])

/-- Embeds `OpenCodeClient._send_message_to_session`: the POST /session/id/message
call, returning the decoded AssistantMessage. -/
def _send_message_to_session (session_id : String) (message : UserMessage)
    (response : Except Nat AssistantMessage) :
    Except PyError AssistantMessage × List Request :=
  (mapHttp response, [Request.sendMessage session_id message])

/-- Embeds `OpenCodeClient.delete_session`: resolve the identifier (explicit, else
current session, else raise before any network call), then delete. -/
def delete_session (st : ClientState) (session_id : Option String)
    (response : Except Nat Unit) :
    Except PyError Unit × ClientState × List Request :=
  match resolveSid session_id st with
  | none => (.error noSessionIdError, st, [])
  | some sid =>
    let r := _delete_session sid response
    (r.1, st, r.2)

/-- Embeds `OpenCodeClient.update_session`: `if not title: return` (a plain return,
no error, no request); otherwise resolve the identifier and patch. -/
def update_session (st : ClientState) (session_id : Option String)
    (title : Option String) (response : Except Nat Unit) :
    Except PyError Unit × ClientState × List Request :=
  if optStrTruthy title = false then
    (.ok (), st, [])
  else
    match resolveSid session_id st with
    | none => (.error noSessionIdError, st, [])
    | some sid =>
      let r := _update_session sid (title.getD "") response
      (r.1, st, r.2)

/-- A Python argument typed `Union[str, List[str]]`. -/
inductive StrOrList where
  | str (s : String)
  | list (l : List String)
deriving DecidableEq, Repr

/-- The underlying list of strings (`isinstance(x, list)` dispatch: a single
string is processed once, a list element-wise). -/
def StrOrList.strings : StrOrList → List String
  | .str s => [s]
  | .list l => l

/-- Python truthiness of a `Union[str, List[str]]` value: `""` and `[]` are
falsy. -/
def StrOrList.truthy : StrOrList → Bool
  | .str s => s != ""
  | .list l => !l.isEmpty

/-- The text loop of `send_message`: one `TextPart` per text input, appended
in input order. -/
def buildTextParts : StrOrList → List Part
  | .str s => [Part.text (TextPart.from_string s)]
  | .list l => l.map (fun t => Part.text (TextPart.from_string t))

/-- The `f.startswith(("http://", "https://", "ftp://", "file://"))` test of
`send_message`. -/
def isUrlPrefixed (f : String) : Bool :=
  pyStartsWith f "http://" || pyStartsWith f "https://" || pyStartsWith f "ftp://"
    || pyStartsWith f "file://"

/-- The `warnings.warn` text emitted when a local `FilePart` construction
fails with a `ValueError`. -/
def warnMsg (f msg : String) : String :=
  "It was not possible to include file " ++ f ++ " as FilePart because of: " ++ msg

/-- The message of a `PyError`, as interpolated into the warning. -/
def PyError.msg : PyError → String
  | .valueError m => m
  | .osError m => m
  | .httpError code => toString code

/-- The file loop of `send_message`: URL-prefixed inputs go through
`FilePart.from_url` with no handler, local inputs through
`FilePart.from_file` inside `try ... except ValueError`, which warns and
skips; any other exception propagates.  Returns the accumulated parts and
the warnings emitted. -/
def processFiles (env : Env) (files : List String) (parts : List Part)
    (warns : List String) : Except PyError (List Part × List String) :=
  match files with
  | [] => .ok (parts, warns)
  | f :: rest =>
    if isUrlPrefixed f then
      match FilePart.from_url env f with
      | .ok fp => processFiles env rest (parts ++ [Part.file fp]) warns
      | .error e => .error e
    else
      match FilePart.from_file env f with
      | .ok fp => processFiles env rest (parts ++ [Part.file fp]) warns
      | .error (.valueError m) => processFiles env rest parts (warns ++ [warnMsg f m])
      | .error e => .error e

/-- The part (if any) that a file input `f` contributes to a successfully
assembled message: its constructed `FilePart`, or nothing when a local
`ValueError` was warned about and skipped. -/
def partOf (env : Env) (f : String) : Option Part :=
  if isUrlPrefixed f then
    match FilePart.from_url env f with
    | .ok fp => some (Part.file fp)
    | .error _ => none
  else
    match FilePart.from_file env f with
    | .ok fp => some (Part.file fp)
    | .error _ => none

/-- The file strings `send_message` actually iterates over: none when the
`file` argument is absent or falsy (`if file:`). -/
def effectiveFiles : Option StrOrList → List String
  | some f => if f.truthy then f.strings else []
  | none => []

/-- Part assembly of `send_message`: the text parts first, then — only when
`file` is truthy (`if file:`) — the file loop over its strings. -/
def buildParts (env : Env) (text : StrOrList) (file : Option StrOrList) :
    Except PyError (List Part × List String) :=
  let tparts := buildTextParts text
  match file with
  | some f => if f.truthy then processFiles env f.strings tparts [] else .ok (tparts, [])
  | none => .ok (tparts, [])

/-- The `UserMessage(...)` constructed by `send_message` from the composed
parts, the configured model/provider, and the optional system override. -/
def userMessageOf (st : ClientState) (parts : List Part)
    (system_message : Option String) : UserMessage :=
  { modelID := st.model, providerID := st.model_provider, parts := parts,
    system := system_message }

/-- Embeds `OpenCodeClient.send_message`: resolve the session identifier (raise
before any network call when impossible), assemble the parts (an uncaught
construction error aborts here), append the `UserMessage` to chat history,
make the one HTTP call, and on success append the decoded
`AssistantMessage` and return it. -/
def send_message (env : Env) (st : ClientState) (text : StrOrList)
    (file : Option StrOrList) (system_message : Option String)
    (session_id : Option String) (response : Except Nat AssistantMessage) :
    Except PyError AssistantMessage × ClientState × List Request :=
  match resolveSid session_id st with
  | none => (.error noSessionIdError, st, [])
  | some sid =>
    match buildParts env text file with
    | .error e => (.error e, st, [])
    | .ok (parts, _warns) =>
      let user_message := userMessageOf st parts system_message
      let st1 := { st with chat_history := st.chat_history ++ [Message.user user_message] }
      let r := _send_message_to_session sid user_message response
      match r.1 with
      | .ok assistant_message =>
        (.ok assistant_message,
         { st1 with chat_history := st1.chat_history ++ [Message.assistant assistant_message] },
         r.2)
      | .error e => (.error e, st1, r.2)

/-- The decoded reply of one file operation (which of the four shapes the
server returns depends on the operation). -/
inductive FileOpResult where
  | files (l : List File)
  | matches (l : List Match)
  | names (l : List String)
  | readFile (r : ReadFile)
deriving DecidableEq, Repr

/-- The literal string of a `FileOperation`, as interpolated into the
precondition error message. -/
def FileOperation.name : FileOperation → String
  | .read => "read"
  | .get_status => "get_status"
  | .search_by_text => "search_by_text"
  | .search_by_name => "search_by_name"

/-- The `ValueError` raised by `_perform_file_operation` on a falsy query. -/
def queryErr (op : FileOperation) : PyError :=
  .valueError ("Operation " ++ op.name ++ " requires a query value.")

/-- Embeds `OpenCodeClient._perform_file_operation`: `if not query and operation !=
"get_status": raise ValueError(...)` before any network call; otherwise one
GET on the operation's path. -/
def _perform_file_operation (op : FileOperation) (query : Option String)
    (response : Except Nat FileOpResult) :
    Except PyError FileOpResult × List Request :=
  if !optStrTruthy query && op != FileOperation.get_status then
    (.error (queryErr op), [])
  else
    match op with
    | .get_status => (mapHttp response, [Request.fileStatus])
    | .read => (mapHttp response, [Request.readFilePath (query.getD "")])
    | .search_by_name => (mapHttp response, [Request.findFile (query.getD "")])
    | .search_by_text => (mapHttp response, [Request.findText (query.getD "")])

/-- Embeds `OpenCodeClient.search_file_by_name`. -/
def search_file_by_name (name : String) (response : Except Nat FileOpResult) :
    Except PyError FileOpResult × List Request :=
  _perform_file_operation FileOperation.search_by_name (some name) response

/-- Embeds `OpenCodeClient.search_file_by_text`. -/
def search_file_by_text (pattern : String) (response : Except Nat FileOpResult) :
    Except PyError FileOpResult × List Request :=
  _perform_file_operation FileOperation.search_by_text (some pattern) response

/-- Embeds `OpenCodeClient.read_file`. -/
def read_file (path : String) (response : Except Nat FileOpResult) :
    Except PyError FileOpResult × List Request :=
  _perform_file_operation FileOperation.read (some path) response

/-- Embeds `OpenCodeClient.get_files_status`: no query is passed. -/
def get_files_status (response : Except Nat FileOpResult) :
    Except PyError FileOpResult × List Request :=
  _perform_file_operation FileOperation.get_status none response

/-- Embeds `OpenCodeClient.abort_session`: resolve the identifier, then abort. -/
def abort_session (st : ClientState) (session_id : Option String)
    (response : Except Nat Unit) :
    Except PyError Unit × ClientState × List Request :=
  match resolveSid session_id st with
  | none => (.error noSessionIdError, st, [])
  | some sid =>
    let r := _abort_session sid response
    (r.1, st, r.2)

/-! ### Concrete fixtures used by counterexamples and witnesses -/

/-- A concrete session. -/
def sess1 : Session :=
  { id := "s1", title := "first", version := "1", projectID := "proj",
    directory := "/w", time := { created := 0, updated := 0 } }

/-- A freshly constructed client: no current session, empty chat history. -/
def stEmpty : ClientState :=
  { base_url := "http://127.0.0.1:4596", model_provider := "openai", model := "gpt-5" }

/-- A client whose current session is `sess1`. -/
def stWith : ClientState :=
  { stEmpty with current_session := some sess1 }

/-- A concrete decoded assistant reply. -/
def am0 : AssistantMessage :=
  { info := { id := "a1", system := [], mode := "build",
              path := { cwd := "/w", root := "/w" }, cost := 0,
              tokens := { input := 1, output := 2, reasoning := 0,
                          cache := { read := 0, write := 0 } },
              modelID := "gpt-5", providerID := "openai",
              time := { started := 0, completed := 1 }, sessionID := "s1" },
    parts := [], bloked := false }

/-- A concrete environment: `.txt` guesses `text/plain`, `.png` guesses
`image/png`, anything else has no guessable MIME type; relative paths
resolve under `/cwd`; the filesystem holds a readable text file
`/cwd/good.txt` and an existing but unreadable text file
`/cwd/secret.txt`. -/
def envTest : Env :=
  { guess_type := fun p =>
      if ".txt".data.isSuffixOf p.data then some "text/plain"
      else if ".png".data.isSuffixOf p.data then some "image/png"
      else none,
    resolve := fun f => if pyStartsWith f "/" then f else "/cwd/" ++ f,
    fs := fun p =>
      if p = "/cwd/good.txt" then some { readable := true, content := "hello" }
      else if p = "/cwd/secret.txt" then some { readable := false, content := "top" }
      else if p = "/cwd/pic.png" then some { readable := true, content := "PNG" }
      else if p = "/cwd/prog.xyz" then some { readable := true, content := "xyz" }
      else none }

/-- The `FilePart` built from `/cwd/good.txt`. -/
def goodPart : FilePart :=
  { mime := "text/plain", url := "file:///cwd/good.txt", type := "file",
    id := "", filename := "good.txt",
    source := some { path := "/cwd/good.txt",
                     text := { start := 0, «end» := 5, value := "hello" },
                     type := "file" } }

example : FilePart.from_file envTest "good.txt" = .ok goodPart := rfl
example : FilePart.from_file envTest "secret.txt"
    = .error (.osError "Permission denied: /cwd/secret.txt") := rfl
example : FilePart.from_file envTest "nofile.txt"
    = .error (.valueError "The provided file does not exist") := rfl
example : FilePart.from_file envTest "pic.png"
    = .error (.valueError "Unsopported type: image/png") := rfl
example : FilePart.from_file envTest "prog.xyz"
    = .error (.valueError "It was not possible to guess the mimetype for your file from the provided path") := rfl
example : FilePart.from_url envTest "http://h/a.txt"
    = .ok { mime := "text/plain", url := "http://h/a.txt" } := rfl
example : FilePart.from_url envTest "http://h/a"
    = .error (.valueError "It was not possible to guess the mimetype for your file from the provided URL") := rfl
example : isUrlPrefixed "http://h/a" = true := by decide
example : isUrlPrefixed "good.txt" = false := by decide
example : resolveSid none stWith = some "s1" := by decide
example : resolveSid (some "") stEmpty = none := by decide

/-! ### Helper lemmas -/

/-- A URL-prefixed string is nonempty. -/
theorem isUrlPrefixed_ne_empty {f : String} (h : isUrlPrefixed f = true) : f ≠ "" := by
  intro hf
  subst hf
  exact absurd h (by decide)

/-- Passing the empty string as the explicit identifier resolves exactly as
passing no identifier (`session_id or ...`: `""` is falsy). -/
theorem resolveSid_empty (st : ClientState) :
    resolveSid (some "") st = resolveSid none st := by
  simp [resolveSid, pyOrStr]

/-- With no current session and no (truthy) explicit identifier, resolution
fails. -/
theorem resolveSid_none_of_no_session {st : ClientState}
    (hcur : st.current_session = none) : resolveSid none st = none := by
  simp [resolveSid, pyOrStr, hcur]

/-- The function `partOf` only ever contributes file parts. -/
theorem partOf_isFile {env : Env} {f : String} {p : Part}
    (h : partOf env f = some p) : ∃ fp, p = Part.file fp := by
  unfold partOf at h
  split at h
  · split at h
    · exact ⟨_, (Option.some_inj.mp h).symm⟩
    · exact absurd h (by simp)
  · split at h
    · exact ⟨_, (Option.some_inj.mp h).symm⟩
    · exact absurd h (by simp)

/-- The parts accumulated by a successful file loop are the initial
accumulator followed by the per-file contributions in input order. -/
theorem processFiles_ok_parts (env : Env) :
    ∀ (files : List String) (parts : List Part) (warns ws : List String) (ps : List Part),
      processFiles env files parts warns = .ok (ps, ws) →
      ps = parts ++ files.filterMap (partOf env) := by
  intro files
  induction files with
  | nil =>
    intro parts warns ws ps h
    simp [processFiles] at h
    simp [h.1]
  | cons f rest ih =>
    intro parts warns ws ps h
    rw [processFiles] at h
    split at h
    · rename_i hurl
      split at h
      · rename_i fp hfu
        have hps := ih (parts ++ [Part.file fp]) warns ws ps h
        have hsome : partOf env f = some (Part.file fp) := by
          simp [partOf, hurl, hfu]
        simp [hps, List.filterMap_cons, hsome]
      · simp at h
    · rename_i hurl
      split at h
      · rename_i fp hff
        have hps := ih (parts ++ [Part.file fp]) warns ws ps h
        have hsome : partOf env f = some (Part.file fp) := by
          simp [partOf, hurl, hff]
        simp [hps, List.filterMap_cons, hsome]
      · rename_i m hff
        have hps := ih parts (warns ++ [warnMsg f m]) ws ps h
        have hnone : partOf env f = none := by
          simp [partOf, hurl, hff]
        simp [hps, List.filterMap_cons, hnone]
      · simp at h

/-- File-loop step: a URL-prefixed input whose construction succeeds is
appended and the loop continues. -/
theorem processFiles_cons_of_url_ok {env : Env} {f : String} {fp : FilePart}
    (rest : List String) (parts : List Part) (warns : List String)
    (hurl : isUrlPrefixed f = true) (hfu : FilePart.from_url env f = .ok fp) :
    processFiles env (f :: rest) parts warns
      = processFiles env rest (parts ++ [Part.file fp]) warns := by
  rw [processFiles]
  simp [hurl, hfu]

/-- File-loop step: a URL-prefixed input whose construction fails raises at
once — there is no handler on the `from_url` branch. -/
theorem processFiles_cons_of_url_err {env : Env} {f : String} {e : PyError}
    (rest : List String) (parts : List Part) (warns : List String)
    (hurl : isUrlPrefixed f = true) (hfu : FilePart.from_url env f = .error e) :
    processFiles env (f :: rest) parts warns = .error e := by
  rw [processFiles]
  simp [hurl, hfu]

/-- File-loop step: a local input whose construction succeeds is appended
and the loop continues. -/
theorem processFiles_cons_of_local_ok {env : Env} {f : String} {fp : FilePart}
    (rest : List String) (parts : List Part) (warns : List String)
    (hurl : isUrlPrefixed f = false) (hff : FilePart.from_file env f = .ok fp) :
    processFiles env (f :: rest) parts warns
      = processFiles env rest (parts ++ [Part.file fp]) warns := by
  rw [processFiles]
  simp [hurl, hff]

/-- File-loop step: a local input whose construction fails with a
`ValueError` is warned about and skipped, and the loop continues on the
remaining inputs with the parts untouched (`except ValueError: warn;
continue`). -/
theorem processFiles_cons_of_local_skip {env : Env} {f : String} {m : String}
    (rest : List String) (parts : List Part) (warns : List String)
    (hurl : isUrlPrefixed f = false)
    (hff : FilePart.from_file env f = .error (.valueError m)) :
    processFiles env (f :: rest) parts warns
      = processFiles env rest parts (warns ++ [warnMsg f m]) := by
  rw [processFiles]
  simp [hurl, hff]

/-- File-loop step: a local input whose construction fails with an OS-level
error raises at once — `except ValueError` does not catch it. -/
theorem processFiles_cons_of_local_os {env : Env} {f : String} {m : String}
    (rest : List String) (parts : List Part) (warns : List String)
    (hurl : isUrlPrefixed f = false)
    (hff : FilePart.from_file env f = .error (.osError m)) :
    processFiles env (f :: rest) parts warns = .error (.osError m) := by
  rw [processFiles]
  simp [hurl, hff]

/-- If some file input is URL-prefixed with no guessable MIME type, the file
loop as a whole raises (either that input's uncaught `from_url` error or an
earlier uncaught one). -/
theorem processFiles_error_of_mem (env : Env) :
    ∀ (files : List String) (parts : List Part) (warns : List String) (f : String),
      f ∈ files → isUrlPrefixed f = true → env.guess_type f = none →
      ∃ e, processFiles env files parts warns = .error e := by
  intro files
  induction files with
  | nil =>
    intro parts warns f hf _ _
    cases hf
  | cons g rest ih =>
    intro parts warns f hf hurl hguess
    rcases List.mem_cons.mp hf with heq | hmem
    · subst heq
      refine ⟨.valueError "It was not possible to guess the mimetype for your file from the provided URL", ?_⟩
      have hfu : FilePart.from_url env f
          = .error (.valueError "It was not possible to guess the mimetype for your file from the provided URL") := by
        simp [FilePart.from_url, _raw_guess_mimetypes, hguess]
      exact processFiles_cons_of_url_err rest parts warns hurl hfu
    · by_cases hg : isUrlPrefixed g
      · cases hfu : FilePart.from_url env g with
        | ok fp =>
          obtain ⟨e, he⟩ := ih (parts ++ [Part.file fp]) warns f hmem hurl hguess
          exact ⟨e, by rw [processFiles_cons_of_url_ok rest parts warns hg hfu]; exact he⟩
        | error e =>
          exact ⟨e, processFiles_cons_of_url_err rest parts warns hg hfu⟩
      · have hg' : isUrlPrefixed g = false := by simpa using hg
        cases hff : FilePart.from_file env g with
        | ok fp =>
          obtain ⟨e, he⟩ := ih (parts ++ [Part.file fp]) warns f hmem hurl hguess
          exact ⟨e, by rw [processFiles_cons_of_local_ok rest parts warns hg' hff]; exact he⟩
        | error e =>
          cases e with
          | valueError m =>
            obtain ⟨e2, he2⟩ := ih parts (warns ++ [warnMsg g m]) f hmem hurl hguess
            exact ⟨e2, by rw [processFiles_cons_of_local_skip rest parts warns hg' hff]; exact he2⟩
          | osError m =>
            exact ⟨.osError m, processFiles_cons_of_local_os rest parts warns hg' hff⟩
          | httpError c =>
            refine ⟨.httpError c, ?_⟩
            rw [processFiles]
            simp [hg', hff]

/-- The text loop `buildTextParts` yields one `TextPart` per underlying text string, in input
order (a single string behaves as the one-element sequence). -/
theorem buildTextParts_eq (text : StrOrList) :
    buildTextParts text
      = text.strings.map (fun t => Part.text (TextPart.from_string t)) := by
  cases text <;> simp [buildTextParts, StrOrList.strings]

/-- Every part contributed by the text loop is a `TextPart`. -/
theorem buildTextParts_isText (text : StrOrList) :
    ∀ p ∈ buildTextParts text, ∃ tp, p = Part.text tp := by
  intro p hp
  cases text with
  | str s =>
    simp [buildTextParts] at hp
    exact ⟨_, hp⟩
  | list l =>
    simp [buildTextParts] at hp
    obtain ⟨t, _, hpt⟩ := hp
    exact ⟨_, hpt.symm⟩

/-- The parts of a successfully assembled message are the text parts, in
input order, followed by the per-file contributions in input order. -/
theorem buildParts_ok_parts (env : Env) (text : StrOrList) (file : Option StrOrList)
    (ps : List Part) (ws : List String)
    (h : buildParts env text file = .ok (ps, ws)) :
    ps = buildTextParts text ++ (effectiveFiles file).filterMap (partOf env) := by
  unfold buildParts at h
  cases file with
  | none =>
    simp at h
    simp [effectiveFiles, ← h.1]
  | some fL =>
    by_cases htr : fL.truthy
    · simp [htr] at h
      have := processFiles_ok_parts env fL.strings (buildTextParts text) [] ws ps h
      simp [effectiveFiles, htr, this]
    · have htr' : fL.truthy = false := by simpa using htr
      simp [htr'] at h
      simp [effectiveFiles, htr', ← h.1]

/-- Unfolding of `FilePart.from_file` with its local `abs_path` substituted. -/
theorem FilePart.from_file_eq (env : Env) (file : String) :
    FilePart.from_file env file =
      match env.fs (env.resolve file) with
      | some _ =>
        match env.guess_type (env.resolve file) with
        | none => .error (.valueError "It was not possible to guess the mimetype for your file from the provided path")
        | some mimetype =>
          if pyStartsWith mimetype "text/" then
            match FileSource.from_file env (env.resolve file) with
            | .ok src =>
              .ok { mime := mimetype, url := "file://" ++ env.resolve file,
                    type := "file", filename := file, source := some src }
            | .error e => .error e
          else
            .error (.valueError ("Unsopported type: " ++ mimetype))
      | none => .error (.valueError "The provided file does not exist") := rfl

/-- The constructor `FileSource.from_file` succeeds exactly on a readable filesystem entry,
and then embeds the full content with `start = 0` and `end = len`. -/
theorem FileSource.from_file_ok_iff (env : Env) (p : String) (src : FileSource) :
    FileSource.from_file env p = .ok src ↔
      ∃ e, env.fs p = some e ∧ e.readable = true ∧
        src = { path := p,
                text := { start := 0, «end» := e.content.length, value := e.content },
                type := "file" } := by
  cases hfs : env.fs p with
  | none =>
    simp [FileSource.from_file, FileSourceText.from_file, hfs]
  | some e =>
    by_cases hread : e.readable
    · simp [FileSource.from_file, FileSourceText.from_file, hfs, hread]
      exact eq_comm
    · have hread' : e.readable = false := by simpa using hread
      simp [FileSource.from_file, FileSourceText.from_file, hfs, hread']

/-- A nonempty member makes a `Union[str, List[str]]` value truthy. -/
theorem StrOrList.truthy_of_mem {f : String} {x : StrOrList}
    (hf : f ∈ x.strings) (hne : f ≠ "") : x.truthy = true := by
  cases x with
  | str s =>
    simp [StrOrList.strings] at hf
    subst hf
    simp [StrOrList.truthy, hne]
  | list l =>
    cases l with
    | nil => cases hf
    | cons a as => rfl

/-! ### Claim theorems -/

/-- C1 counterexample: a call to `update_session` with no explicit session
identifier, no current session, and no title returns normally (`if not
title: return`) instead of failing with the no-session-identifier
precondition error the claim requires of every such call. -/
theorem c1_counterexample :
    update_session stEmpty none none (.ok ()) = (.ok (), stEmpty, []) ∧
    stEmpty.current_session = none :=
  ⟨rfl, rfl⟩

/-- C1 (amended): with no explicit identifier and no current session,
`delete_session`, `abort_session` and `send_message` fail with the
no-session-identifier `ValueError` while issuing no HTTP request and
leaving the client state unchanged; `update_session` does so exactly when a
non-empty title is supplied — with a missing or empty title it returns
normally as a no-op, again with no HTTP request. -/
theorem c1_no_session_precondition (env : Env) (st : ClientState) (t : String)
    (text : StrOrList) (file : Option StrOrList) (sysm : Option String)
    (rdel rupd rab : Except Nat Unit) (rsend : Except Nat AssistantMessage)
    (hcur : st.current_session = none) (ht : t ≠ "") :
    delete_session st none rdel = (.error noSessionIdError, st, []) ∧
    abort_session st none rab = (.error noSessionIdError, st, []) ∧
    update_session st none (some t) rupd = (.error noSessionIdError, st, []) ∧
    update_session st none none rupd = (.ok (), st, []) ∧
    update_session st none (some "") rupd = (.ok (), st, []) ∧
    send_message env st text file sysm none rsend = (.error noSessionIdError, st, []) := by
  have hres := resolveSid_none_of_no_session hcur
  refine ⟨?_, ?_, ?_, ?_, ?_, ?_⟩
  · simp [delete_session, hres]
  · simp [abort_session, hres]
  · simp [update_session, optStrTruthy, ht, hres]
  · simp [update_session, optStrTruthy]
  · simp [update_session, optStrTruthy]
  · simp [send_message, hres]

/-- C1 witness: the amended statement at a concrete fresh client. -/
theorem c1_no_session_precondition_witness :
    stEmpty.current_session = none ∧ ("hello" : String) ≠ "" ∧
    (delete_session stEmpty none (.ok ()) = (.error noSessionIdError, stEmpty, []) ∧
     abort_session stEmpty none (.ok ()) = (.error noSessionIdError, stEmpty, []) ∧
     update_session stEmpty none (some "hello") (.ok ()) = (.error noSessionIdError, stEmpty, []) ∧
     update_session stEmpty none none (.ok ()) = (.ok (), stEmpty, []) ∧
     update_session stEmpty none (some "") (.ok ()) = (.ok (), stEmpty, []) ∧
     send_message envTest stEmpty (.str "hi") none none none (.error 500)
       = (.error noSessionIdError, stEmpty, [])) :=
  ⟨rfl, by decide,
   c1_no_session_precondition envTest stEmpty "hello" (.str "hi") none none
     (.ok ()) (.ok ()) (.ok ()) (.error 500) rfl (by decide)⟩

/-- C3: `list_sessions` decodes and returns the ordered sequence exactly as
received from the server (and turns a non-2xx reply into an HTTP error),
but leaves the client state — which, per `__init__`, has no session-cache
field at all — completely unchanged: no cache is replaced because none
exists.  The repository's own test asserts a `_sessions` cache
(`assert opencode_client._sessions == {}`), which the code does not have. -/
theorem c3_list_sessions_state_unchanged (st : ClientState)
    (sessions : List Session) (code : Nat) :
    list_sessions st (.ok sessions) = (.ok sessions, st, [Request.listSessions]) ∧
    list_sessions st (.error code) = (.error (.httpError code), st, [Request.listSessions]) :=
  ⟨rfl, rfl⟩

/-- C8: session creation always issues one request whose `parentID` is the
Python value `parent_id or ""` — the empty string when the argument is
absent or empty — together with the title; on success the decoded session
becomes the current session and is returned, so the current-session
identifier afterwards equals the new session's identifier; on HTTP failure
the state is unchanged. -/
theorem c8_create_session (st : ClientState) (title parent_id : Option String)
    (session : Session) (code : Nat) :
    create_current_session st title parent_id (.ok session)
      = (.ok session, { st with current_session := some session },
         [Request.createSession ((pyOrStr parent_id (some "")).getD "") title]) ∧
    ((create_current_session st title parent_id (.ok session)).2.1.current_session
       |>.map Session.id) = some session.id ∧
    (pyOrStr none (some "")).getD "" = "" ∧
    create_current_session st title parent_id (.error code)
      = (.error (.httpError code), st,
         [Request.createSession ((pyOrStr parent_id (some "")).getD "") title]) :=
  ⟨rfl, rfl, rfl, rfl⟩

/-- C9: the three query-taking file operations raise the missing-query
`ValueError` on an empty (or absent) query before any HTTP request, while
`get_files_status` needs no query and always proceeds to its one request. -/
theorem c9_query_precondition (response : Except Nat FileOpResult) :
    read_file "" response = (.error (queryErr .read), []) ∧
    search_file_by_name "" response = (.error (queryErr .search_by_name), []) ∧
    search_file_by_text "" response = (.error (queryErr .search_by_text), []) ∧
    _perform_file_operation .read none response = (.error (queryErr .read), []) ∧
    _perform_file_operation .search_by_name none response
      = (.error (queryErr .search_by_name), []) ∧
    _perform_file_operation .search_by_text none response
      = (.error (queryErr .search_by_text), []) ∧
    get_files_status response = (mapHttp response, [Request.fileStatus]) :=
  ⟨rfl, rfl, rfl, rfl, rfl, rfl, rfl⟩

/-- C10: an explicit empty-string session identifier is treated exactly
like no identifier by all four identifier-resolving operations (`session_id
or ...`: `""` is falsy), and when additionally no current session exists
they raise the no-session-identifier error with no HTTP request. -/
theorem c10_empty_id_like_none (env : Env) (st st2 : ClientState)
    (t : Option String) (text : StrOrList) (file : Option StrOrList)
    (sysm : Option String) (r : Except Nat Unit)
    (resp : Except Nat AssistantMessage)
    (hcur : st2.current_session = none) :
    delete_session st (some "") r = delete_session st none r ∧
    update_session st (some "") t r = update_session st none t r ∧
    abort_session st (some "") r = abort_session st none r ∧
    send_message env st text file sysm (some "") resp
      = send_message env st text file sysm none resp ∧
    delete_session st2 (some "") r = (.error noSessionIdError, st2, []) ∧
    abort_session st2 (some "") r = (.error noSessionIdError, st2, []) ∧
    send_message env st2 text file sysm (some "") resp
      = (.error noSessionIdError, st2, []) := by
  have h2 : resolveSid (some "") st2 = none := by
    rw [resolveSid_empty]
    exact resolveSid_none_of_no_session hcur
  refine ⟨?_, ?_, ?_, ?_, ?_, ?_, ?_⟩
  · simp [delete_session, resolveSid_empty]
  · simp [update_session, resolveSid_empty]
  · simp [abort_session, resolveSid_empty]
  · simp [send_message, resolveSid_empty]
  · simp [delete_session, h2]
  · simp [abort_session, h2]
  · simp [send_message, h2]

/-- C10 witness: the statement at concrete clients (one with a current
session, one without). -/
theorem c10_empty_id_like_none_witness :
    stEmpty.current_session = none ∧
    (delete_session stWith (some "") (.ok ()) = delete_session stWith none (.ok ()) ∧
     update_session stWith (some "") (some "x") (.ok ())
       = update_session stWith none (some "x") (.ok ()) ∧
     abort_session stWith (some "") (.ok ()) = abort_session stWith none (.ok ()) ∧
     send_message envTest stWith (.str "hi") none none (some "") (.error 500)
       = send_message envTest stWith (.str "hi") none none none (.error 500) ∧
     delete_session stEmpty (some "") (.ok ()) = (.error noSessionIdError, stEmpty, []) ∧
     abort_session stEmpty (some "") (.ok ()) = (.error noSessionIdError, stEmpty, []) ∧
     send_message envTest stEmpty (.str "hi") none none (some "") (.error 500)
       = (.error noSessionIdError, stEmpty, [])) :=
  ⟨rfl,
   c10_empty_id_like_none envTest stWith stEmpty (some "x") (.str "hi") none none
     (.ok ()) (.error 500) rfl⟩

/-- C2 counterexample: `/cwd/secret.txt` exists as a regular file with a
`text/plain` MIME type but is unreadable, so its construction failure is an
OS-level error; `except ValueError` does not catch it, and the whole send
aborts with no warning, no request and no history entry — contradicting the
claim that every local-file construction failure (including an unreadable
file) is caught, warned about and skipped. -/
theorem c2_counterexample :
    FilePart.from_file envTest "secret.txt"
      = .error (.osError "Permission denied: /cwd/secret.txt") ∧
    send_message envTest stWith (.str "hi") (some (.str "secret.txt")) none none (.error 500)
      = (.error (.osError "Permission denied: /cwd/secret.txt"), stWith, []) :=
  ⟨rfl, rfl⟩

/-- C2 (amended): a local (non-URL-prefixed) file input whose `FilePart`
construction fails with a `ValueError` — nonexistent path, no guessable
MIME type, or a disallowed (non-`text/`) MIME type — is caught by the
message composer, reported as a recoverable warning, and skipped, while the
file loop continues on the remaining inputs with the parts assembled so far
untouched; an OS-level read failure (an unreadable file) is not caught and
aborts the loop. -/
theorem c2_local_valueerror_skipped (env : Env) :
    (∀ (f m : String) (rest : List String) (parts : List Part) (warns : List String),
      isUrlPrefixed f = false →
      FilePart.from_file env f = .error (.valueError m) →
      processFiles env (f :: rest) parts warns
        = processFiles env rest parts (warns ++ [warnMsg f m])) ∧
    (∀ (f m : String) (rest : List String) (parts : List Part) (warns : List String),
      isUrlPrefixed f = false →
      FilePart.from_file env f = .error (.osError m) →
      processFiles env (f :: rest) parts warns = .error (.osError m)) :=
  ⟨fun _ _ rest parts warns hurl hff =>
     processFiles_cons_of_local_skip rest parts warns hurl hff,
   fun _ _ rest parts warns hurl hff =>
     processFiles_cons_of_local_os rest parts warns hurl hff⟩

/-- C2 witness: mixing one valid local text file with one nonexistent local
file skips the bad one with a warning and yields exactly one `FilePart`. -/
theorem c2_local_valueerror_skipped_witness :
    (isUrlPrefixed "nofile.txt" = false ∧
     FilePart.from_file envTest "nofile.txt"
       = .error (.valueError "The provided file does not exist") ∧
     processFiles envTest ["nofile.txt", "good.txt"] [] []
       = processFiles envTest ["good.txt"] []
           [warnMsg "nofile.txt" "The provided file does not exist"]) ∧
    processFiles envTest ["nofile.txt", "good.txt"] [] []
      = .ok ([Part.file goodPart],
             [warnMsg "nofile.txt" "The provided file does not exist"]) :=
  ⟨⟨by decide, rfl,
    (c2_local_valueerror_skipped envTest).1 "nofile.txt" _ ["good.txt"] [] []
      (by decide) rfl⟩,
   rfl⟩

/-- C4 counterexample: `/cwd/secret.txt` exists as a regular file and a
`text/*` MIME type is guessable from it, yet `FilePart.from_file` fails
(with an OS-level error, the file being unreadable) — contradicting the
claim that construction succeeds exactly when the path exists as a regular
file and a `text/*` MIME type can be inferred. -/
theorem c4_counterexample :
    envTest.fs (envTest.resolve "secret.txt")
      = some { readable := false, content := "top" } ∧
    envTest.guess_type (envTest.resolve "secret.txt") = some "text/plain" ∧
    pyStartsWith "text/plain" "text/" = true ∧
    FilePart.from_file envTest "secret.txt"
      = .error (.osError "Permission denied: /cwd/secret.txt") :=
  ⟨rfl, rfl, by decide, rfl⟩

/-- C4 (amended): constructing a `FilePart` from a local path succeeds
exactly when the resolved path exists as a regular *readable* file and a
MIME type beginning with `text/` can be inferred from it; on success the
part's URL is `file://` plus the resolved path and its embedded content is
the file's full content with `start = 0` and `end` its length; in every
other case construction fails (a `ValueError` for a missing path or a
missing/disallowed MIME type, an OS-level error for an unreadable file). -/
theorem c4_from_file_characterization (env : Env) (file : String) :
    ((∃ fp, FilePart.from_file env file = .ok fp) ↔
      ∃ entry mimetype, env.fs (env.resolve file) = some entry ∧
        entry.readable = true ∧
        env.guess_type (env.resolve file) = some mimetype ∧
        pyStartsWith mimetype "text/" = true) ∧
    (∀ fp, FilePart.from_file env file = .ok fp →
      fp.url = "file://" ++ env.resolve file ∧
      ∃ entry, env.fs (env.resolve file) = some entry ∧
        fp.source = some { path := env.resolve file,
                           text := { start := 0, «end» := entry.content.length,
                                     value := entry.content },
                           type := "file" }) := by
  constructor
  · constructor
    · rintro ⟨fp, hfp⟩
      rw [FilePart.from_file_eq] at hfp
      split at hfp
      · rename_i entry hfs
        split at hfp
        · simp at hfp
        · rename_i mimetype hmt
          split at hfp
          · rename_i hstarts
            split at hfp
            · rename_i src hsrc
              obtain ⟨e, hfs2, hread, _⟩ := (FileSource.from_file_ok_iff env _ src).mp hsrc
              exact ⟨e, mimetype, hfs2, hread, hmt, hstarts⟩
            · simp at hfp
          · simp at hfp
      · simp at hfp
    · rintro ⟨entry, mimetype, hfs, hread, hmt, hstarts⟩
      have hsrc : FileSource.from_file env (env.resolve file)
          = .ok { path := env.resolve file,
                  text := { start := 0, «end» := entry.content.length,
                            value := entry.content },
                  type := "file" } :=
        (FileSource.from_file_ok_iff env (env.resolve file) _).mpr
          ⟨entry, hfs, hread, rfl⟩
      refine ⟨{ mime := mimetype, url := "file://" ++ env.resolve file,
                type := "file", filename := file,
                source := some { path := env.resolve file,
                                 text := { start := 0, «end» := entry.content.length,
                                           value := entry.content },
                                 type := "file" } }, ?_⟩
      rw [FilePart.from_file_eq]
      simp [hfs, hmt, hstarts, hsrc]
  · intro fp hfp
    rw [FilePart.from_file_eq] at hfp
    split at hfp
    · rename_i entry hfs
      split at hfp
      · simp at hfp
      · rename_i mimetype hmt
        split at hfp
        · split at hfp
          · rename_i src hsrc
            obtain ⟨e, hfs2, hread, hsrceq⟩ := (FileSource.from_file_ok_iff env _ src).mp hsrc
            obtain rfl := Except.ok.inj hfp
            exact ⟨rfl, e, hfs2, by rw [hsrceq]⟩
          · simp at hfp
        · simp at hfp
    · simp at hfp

/-- C4 witness: the characterization, instantiated at the readable local
text file `good.txt`. -/
theorem c4_from_file_characterization_witness :
    (∃ fp, FilePart.from_file envTest "good.txt" = .ok fp) ∧
    (goodPart.url = "file://" ++ envTest.resolve "good.txt" ∧
     ∃ entry, envTest.fs (envTest.resolve "good.txt") = some entry ∧
       goodPart.source = some { path := envTest.resolve "good.txt",
                                text := { start := 0, «end» := entry.content.length,
                                          value := entry.content },
                                type := "file" }) :=
  ⟨(c4_from_file_characterization envTest "good.txt").1.mpr
     ⟨{ readable := true, content := "hello" }, "text/plain", rfl, rfl, rfl, by decide⟩,
   (c4_from_file_characterization envTest "good.txt").2 goodPart rfl⟩

/-- C5: when a file input carries one of the recognized remote-scheme
prefixes (`http://`, `https://`, `ftp://`, `file://`) and no MIME type can
be inferred from it, the `from_url` `ValueError` is not caught at the
message-composer layer: the whole send aborts — no HTTP request is issued,
no history entry is recorded, and the call returns an error (for the single
failing input, exactly the MIME-inference `ValueError`). -/
theorem c5_remote_mime_error_aborts (env : Env) (st : ClientState)
    (text : StrOrList) (fileInput : StrOrList) (sysm : Option String)
    (session_id : Option String) (sid : String) (f : String)
    (resp resp2 : Except Nat AssistantMessage)
    (hsid : resolveSid session_id st = some sid)
    (hf : f ∈ fileInput.strings)
    (hurl : isUrlPrefixed f = true)
    (hguess : env.guess_type f = none) :
    (∃ e, send_message env st text (some fileInput) sysm session_id resp
        = (.error e, st, [])) ∧
    send_message env st text (some (.str f)) sysm session_id resp2
      = (.error (.valueError "It was not possible to guess the mimetype for your file from the provided URL"),
         st, []) := by
  have hne : f ≠ "" := isUrlPrefixed_ne_empty hurl
  have htr : fileInput.truthy = true := StrOrList.truthy_of_mem hf hne
  obtain ⟨e, he⟩ := processFiles_error_of_mem env fileInput.strings
    (buildTextParts text) [] f hf hurl hguess
  constructor
  · refine ⟨e, ?_⟩
    simp [send_message, hsid, buildParts, htr, he]
  · have hfu : FilePart.from_url env f
        = .error (.valueError "It was not possible to guess the mimetype for your file from the provided URL") := by
      simp [FilePart.from_url, _raw_guess_mimetypes, hguess]
    have hproc := processFiles_cons_of_url_err ([] : List String)
      (buildTextParts text) [] hurl hfu
    simp [send_message, hsid, buildParts, StrOrList.truthy, StrOrList.strings,
      hne, hproc]

/-- C5 witness: one URL-prefixed input with no guessable MIME type aborts
the whole send of a concrete client. -/
theorem c5_remote_mime_error_aborts_witness :
    resolveSid none stWith = some "s1" ∧
    "http://h/a" ∈ StrOrList.strings (.list ["http://h/a"]) ∧
    isUrlPrefixed "http://h/a" = true ∧
    envTest.guess_type "http://h/a" = none ∧
    ((∃ e, send_message envTest stWith (.str "hi") (some (.list ["http://h/a"]))
         none none (.error 500) = (.error e, stWith, [])) ∧
     send_message envTest stWith (.str "hi") (some (.str "http://h/a"))
         none none (.error 502)
       = (.error (.valueError "It was not possible to guess the mimetype for your file from the provided URL"),
          stWith, [])) :=
  ⟨rfl, by simp [StrOrList.strings], by decide, rfl,
   c5_remote_mime_error_aborts envTest stWith (.str "hi") (.list ["http://h/a"])
     none none "s1" "http://h/a" (.error 500) (.error 502) rfl
     (by simp [StrOrList.strings]) (by decide) rfl⟩

/-- C6: the parts of a successfully assembled message are exactly one
`TextPart` per text input (whether the text argument is a single string or
a sequence), in input order, followed by the file contributions in the
order of the file inputs (`List.filterMap` preserves order; skipped local
failures contribute nothing); every part of the first block is a
`TextPart` and every part of the second a `FilePart`. -/
theorem c6_part_order (env : Env) (text : StrOrList) (file : Option StrOrList)
    (ps : List Part) (ws : List String)
    (h : buildParts env text file = .ok (ps, ws)) :
    ps = text.strings.map (fun t => Part.text (TextPart.from_string t))
        ++ (effectiveFiles file).filterMap (partOf env) ∧
    (∀ p ∈ text.strings.map (fun t => Part.text (TextPart.from_string t)),
      ∃ tp, p = Part.text tp) ∧
    (∀ p ∈ (effectiveFiles file).filterMap (partOf env),
      ∃ fp, p = Part.file fp) := by
  refine ⟨?_, ?_, ?_⟩
  · have hps := buildParts_ok_parts env text file ps ws h
    rw [hps, buildTextParts_eq]
  · intro p hp
    rw [← buildTextParts_eq] at hp
    exact buildTextParts_isText text p hp
  · intro p hp
    obtain ⟨f, _, hpf⟩ := List.mem_filterMap.mp hp
    exact partOf_isFile hpf

/-- C6 witness: two text inputs and three file inputs (one good local, one
skipped local, one URL) assemble into the two text parts followed by the
two file parts, in input order. -/
theorem c6_part_order_witness :
    buildParts envTest (.list ["a", "b"])
        (some (.list ["good.txt", "nofile.txt", "http://h/a.txt"]))
      = .ok ([Part.text (TextPart.from_string "a"), Part.text (TextPart.from_string "b"),
              Part.file goodPart, Part.file { mime := "text/plain", url := "http://h/a.txt" }],
             [warnMsg "nofile.txt" "The provided file does not exist"]) ∧
    [Part.text (TextPart.from_string "a"), Part.text (TextPart.from_string "b"),
     Part.file goodPart, Part.file { mime := "text/plain", url := "http://h/a.txt" }]
      = (StrOrList.list ["a", "b"]).strings.map
          (fun t => Part.text (TextPart.from_string t))
        ++ (effectiveFiles (some (.list ["good.txt", "nofile.txt", "http://h/a.txt"]))).filterMap
             (partOf envTest) :=
  ⟨rfl,
   (c6_part_order envTest (.list ["a", "b"])
      (some (.list ["good.txt", "nofile.txt", "http://h/a.txt"]))
      [Part.text (TextPart.from_string "a"), Part.text (TextPart.from_string "b"),
       Part.file goodPart, Part.file { mime := "text/plain", url := "http://h/a.txt" }]
      [warnMsg "nofile.txt" "The provided file does not exist"] rfl).1⟩

/-- C7: once identifier resolution and part assembly succeed, the composed
`UserMessage` is appended to chat history and the one HTTP request carries
it; on HTTP failure the call errors with the user message still the last
history entry (it was recorded before the call), and on success the decoded
`AssistantMessage` is appended immediately after it, with nothing in
between. -/
theorem c7_history_ordering (env : Env) (st : ClientState) (text : StrOrList)
    (file : Option StrOrList) (sysm : Option String) (session_id : Option String)
    (sid : String) (parts : List Part) (warns : List String) (code : Nat)
    (am : AssistantMessage)
    (hsid : resolveSid session_id st = some sid)
    (hparts : buildParts env text file = .ok (parts, warns)) :
    send_message env st text file sysm session_id (.error code)
      = (.error (.httpError code),
         { st with chat_history := st.chat_history
             ++ [Message.user (userMessageOf st parts sysm)] },
         [Request.sendMessage sid (userMessageOf st parts sysm)]) ∧
    send_message env st text file sysm session_id (.ok am)
      = (.ok am,
         { st with chat_history := st.chat_history
             ++ [Message.user (userMessageOf st parts sysm),
                 Message.assistant am] },
         [Request.sendMessage sid (userMessageOf st parts sysm)]) := by
  constructor <;>
    simp [send_message, hsid, hparts, _send_message_to_session, mapHttp,
      userMessageOf]

/-- C7 witness: a concrete send on a client with a current session, with
the failing and the successful server reply. -/
theorem c7_history_ordering_witness :
    resolveSid none stWith = some "s1" ∧
    buildParts envTest (.str "hi") none
      = .ok ([Part.text (TextPart.from_string "hi")], []) ∧
    (send_message envTest stWith (.str "hi") none none none (.error 500)
       = (.error (.httpError 500),
          { stWith with chat_history := stWith.chat_history
              ++ [Message.user (userMessageOf stWith
                    [Part.text (TextPart.from_string "hi")] none)] },
          [Request.sendMessage "s1"
             (userMessageOf stWith [Part.text (TextPart.from_string "hi")] none)]) ∧
     send_message envTest stWith (.str "hi") none none none (.ok am0)
       = (.ok am0,
          { stWith with chat_history := stWith.chat_history
              ++ [Message.user (userMessageOf stWith
                    [Part.text (TextPart.from_string "hi")] none),
                  Message.assistant am0] },
          [Request.sendMessage "s1"
             (userMessageOf stWith [Part.text (TextPart.from_string "hi")] none)])) :=
  ⟨rfl, rfl,
   c7_history_ordering envTest stWith (.str "hi") none none none "s1"
     [Part.text (TextPart.from_string "hi")] [] 500 am0 rfl rfl⟩

end OC
